import Mathlib

/-!
Shallow embedding of `src/source/main.cpp` (mbed BLE_Advertising example):
the error-code classifier `ToString` with its `gs_ErrorCodesMap` table, the
battery-level tick of `update_battery_level`, and the control flow of the
`BluetoothLowEnergyEncapsulation` class (`start`, `on_init_complete`,
`start_advertising`, `update_battery_level`).  Calls into the external mbed
BLE stack (`gap().…`) and the external `events::EventQueue` are represented
by an explicit call trace plus a status oracle supplying each stack call's
returned `ble_error_t`; the mbed `AdvertisingDataBuilder` is represented at
element granularity (one tagged element per advertising-data field, set
calls replacing an existing element of the same tag in place).
-/

namespace BLEAdvertising

/-- Error-code type `ble_error_t`; its enumerators carry the numeric values
of the mbed enum (BLE_ERROR_NONE = 0 … BLE_ERROR_NOT_FOUND = 13), embedded
as plain naturals so that any out-of-enumeration value is representable. -/
abbrev ble_error_t := Nat

def BLE_ERROR_NONE : ble_error_t := 0
def BLE_ERROR_BUFFER_OVERFLOW : ble_error_t := 1
def BLE_ERROR_NOT_IMPLEMENTED : ble_error_t := 2
def BLE_ERROR_PARAM_OUT_OF_RANGE : ble_error_t := 3
def BLE_ERROR_INVALID_PARAM : ble_error_t := 4
def BLE_STACK_BUSY : ble_error_t := 5
def BLE_ERROR_INVALID_STATE : ble_error_t := 6
def BLE_ERROR_NO_MEM : ble_error_t := 7
def BLE_ERROR_OPERATION_NOT_PERMITTED : ble_error_t := 8
def BLE_ERROR_INITIALIZATION_INCOMPLETE : ble_error_t := 9
def BLE_ERROR_ALREADY_INITIALIZED : ble_error_t := 10
def BLE_ERROR_UNSPECIFIED : ble_error_t := 11
def BLE_ERROR_INTERNAL_STACK_FAILURE : ble_error_t := 12
def BLE_ERROR_NOT_FOUND : ble_error_t := 13

/-- The static lookup table `gs_ErrorCodesMap` built by
`make_error_codes_map` (main.cpp lines 39-61): fourteen enumerated codes,
each mapped to its quoted description string. -/
def gs_ErrorCodesMap : List (ble_error_t × String) :=
  [ (BLE_ERROR_NONE, "\"No error\""),
    (BLE_ERROR_BUFFER_OVERFLOW, "\"The requested action would cause a buffer overflow and has been aborted\""),
    (BLE_ERROR_NOT_IMPLEMENTED, "\"Requested a feature that isn\x27t yet implemented or isn\x27t supported by the target HW\""),
    (BLE_ERROR_PARAM_OUT_OF_RANGE, "\"One of the supplied parameters is outside the valid range\""),
    (BLE_ERROR_INVALID_PARAM, "\"One of the supplied parameters is invalid\""),
    (BLE_STACK_BUSY, "\"The stack is busy\""),
    (BLE_ERROR_INVALID_STATE, "\"Invalid state\""),
    (BLE_ERROR_NO_MEM, "\"Out of memory\""),
    (BLE_ERROR_OPERATION_NOT_PERMITTED, "\"The operation requested is not permitted\""),
    (BLE_ERROR_INITIALIZATION_INCOMPLETE, "\"The BLE subsystem has not completed its initialization\""),
    (BLE_ERROR_ALREADY_INITIALIZED, "\"The BLE system has already been initialized\""),
    (BLE_ERROR_UNSPECIFIED, "\"Unknown error\""),
    (BLE_ERROR_INTERNAL_STACK_FAILURE, "\"The platform-specific stack failed\""),
    (BLE_ERROR_NOT_FOUND, "\"Data not found or there is nothing to return\"") ]

/-- The sentinel string `ToString` returns when `find` misses
(main.cpp line 76). -/
def unknownCodeSentinel : String :=
  "\"Warning! Code does not indicate an error and consequently does not exist in gs_ErrorCodesMap!\""

/-- `ToString` (main.cpp lines 63-80): look the key up in
`gs_ErrorCodesMap`; on a hit return the stored description, on a miss
return the fixed sentinel string. -/
def ToString (key : ble_error_t) : String :=
  match gs_ErrorCodesMap.lookup key with
  | some s => s
  | none => unknownCodeSentinel

/-- Initial value of `m_TheBatteryLevel` set by the constructor
(main.cpp line 98). -/
def initialBatteryLevel : Nat := 50

/-- One battery tick, the mutation statement of `update_battery_level`
(main.cpp lines 240-243): `if (m_TheBatteryLevel-- == 10) m_TheBatteryLevel = 100;`.
C post-decrement yields the OLD value to the comparison, then stores
`old - 1` (wrapping as `uint8_t`); when the old value equals 10 the wrap
branch overwrites the decremented value with 100. -/
def update_battery_step (v : Nat) : Nat :=
  let old := v
  let afterDec := (v + 255) % 256
  if old = 10 then 100 else afterDec

/-- Battery level after `k` ticks, starting from the constructor value 50:
`battery_seq 0 = 50`, and each subsequent index applies one
`update_battery_step`. -/
def battery_seq : Nat → Nat
  | 0 => initialBatteryLevel
  | k + 1 => update_battery_step (battery_seq k)

/-- The transition rule in the words of the claim under test: decrement
first (with `uint8_t` wrap), then compare the RESULTING level against 10
for equality and wrap to 100 on a hit.  Kept separate from
`update_battery_step` so the two can be compared. -/
def specClaimedTick (v : Nat) : Nat :=
  let afterDec := (v + 255) % 256
  if afterDec = 10 then 100 else afterDec

/-- Fixed device name `DEVICE_NAME` (main.cpp line 32). -/
def DEVICE_NAME : String := "NUCLEO-WB55RG"

/-- The four manufacturer-specific bytes `_vendor_specific_data`
(main.cpp line 160). -/
def vendorSpecificData : List Nat := [0xAD, 0xDE, 0xBE, 0xEF]

/-- `GattService::UUID_BATTERY_SERVICE` (0x180F in the Bluetooth assigned
numbers used by mbed). -/
def UUID_BATTERY_SERVICE : Nat := 0x180F

/-- One advertising-data element held by the mbed `AdvertisingDataBuilder`,
at the granularity the program uses: Flags, complete local name,
manufacturer-specific data, or service data. -/
inductive AdvElement : Type
  | flags : AdvElement
  | completeLocalName : String → AdvElement
  | manufacturerData : List Nat → AdvElement
  | serviceData : Nat → List Nat → AdvElement
deriving DecidableEq, Repr

/-- Two elements share an advertising-data tag (the builder's set calls
replace an existing element of the same tag rather than appending a
duplicate). -/
def sameTag : AdvElement → AdvElement → Bool
  | AdvElement.flags, AdvElement.flags => true
  | AdvElement.completeLocalName _, AdvElement.completeLocalName _ => true
  | AdvElement.manufacturerData _, AdvElement.manufacturerData _ => true
  | AdvElement.serviceData _ _, AdvElement.serviceData _ _ => true
  | _, _ => false

/-- A builder set call (`setFlags`, `setName`, `setManufacturerSpecificData`,
`setServiceData`): replace the first element with the same tag in place,
otherwise append. -/
def setElement : List AdvElement → AdvElement → List AdvElement
  | [], e => [e]
  | x :: xs, e => if sameTag x e then e :: xs else x :: setElement xs e

/-- Advertising type used by the program: `SCANNABLE_UNDIRECTED`
(main.cpp line 152). -/
inductive AdvType : Type
  | scannableUndirected : AdvType
deriving DecidableEq, Repr

/-- One call into the external BLE stack's Gap interface, recorded with the
data the program passes. -/
inductive StackCall : Type
  | setScanResponse : List AdvElement → StackCall
  | setParams : AdvType → Nat → StackCall
  | setPayload : List AdvElement → StackCall
  | startAdv : StackCall
deriving DecidableEq, Repr

/-- Status oracle for the four Gap calls `start_advertising` makes: the
`ble_error_t` each call would return (0 = `BLE_ERROR_NONE` = success).
The external stack is opaque, so its returned statuses are free inputs. -/
structure StackOracle : Type where
  scanRespStatus : ble_error_t
  paramsStatus : ble_error_t
  payloadStatus : ble_error_t
  startStatus : ble_error_t
deriving DecidableEq, Repr

/-- Observable outcome of `start_advertising`: the Gap calls made in
program order, the error codes reported via `printf`+`ToString`, the final
builder contents, and the period (ms) of the `call_every` registration when
one was made. -/
structure AdvSetupResult : Type where
  calls : List StackCall
  reported : List ble_error_t
  builder : List AdvElement
  periodic : Option Nat
deriving DecidableEq, Repr

/-- `start_advertising` (main.cpp lines 131-236).  Statement order of the
source: build the scan-response payload (manufacturer data) and push it
with `setAdvertisingScanResponse` — whose returned status the source does
NOT bind or check; `clear` the builder; `setFlags`; `setName`;
`setServiceData(battery, level)`; then `setAdvertisingParameters`
(scannable-undirected, 1000 ms), `setAdvertisingPayload`, and
`startAdvertising`, each followed by `if (error) { printf…; return; }`;
finally `call_every(1000ms, update_battery_level)`. -/
def start_advertising (lvl : Nat) (o : StackOracle) : AdvSetupResult :=
  let scanBuilder := setElement [] (AdvElement.manufacturerData vendorSpecificData)
  let callsA := [StackCall.setScanResponse scanBuilder]
  let b1 := setElement [] AdvElement.flags
  let b2 := setElement b1 (AdvElement.completeLocalName DEVICE_NAME)
  let b3 := setElement b2 (AdvElement.serviceData UUID_BATTERY_SERVICE [lvl])
  let callsB := callsA ++ [StackCall.setParams AdvType.scannableUndirected 1000]
  if o.paramsStatus ≠ 0 then
    { calls := callsB, reported := [o.paramsStatus], builder := b3, periodic := none }
  else
    let callsC := callsB ++ [StackCall.setPayload b3]
    if o.payloadStatus ≠ 0 then
      { calls := callsC, reported := [o.payloadStatus], builder := b3, periodic := none }
    else
      let callsD := callsC ++ [StackCall.startAdv]
      if o.startStatus ≠ 0 then
        { calls := callsD, reported := [o.startStatus], builder := b3, periodic := none }
      else
        { calls := callsD, reported := [], builder := b3, periodic := some 1000 }

/-- The scan-response payload the program builds: exactly the
manufacturer-specific data element. -/
def scanResponsePayload : List AdvElement :=
  [AdvElement.manufacturerData vendorSpecificData]

/-- The primary advertising payload the program builds from a battery
level: Flags, complete local name, battery service data. -/
def primaryPayload (lvl : Nat) : List AdvElement :=
  [AdvElement.flags, AdvElement.completeLocalName DEVICE_NAME,
   AdvElement.serviceData UUID_BATTERY_SERVICE [lvl]]

/-- Observable outcome of `on_init_complete`: errors reported, whether
`print_mac_address` ran, the Gap calls made and periodic registration
(both empty/none when setup never ran). -/
structure InitOutcome : Type where
  reported : List ble_error_t
  macPrinted : Bool
  calls : List StackCall
  periodic : Option Nat
deriving DecidableEq, Repr

/-- `on_init_complete` (main.cpp lines 116-129): a non-success
`params->error` is printed (with `ToString`) and the function returns at
once; on success it prints the MAC address and runs `start_advertising`. -/
def on_init_complete (err : ble_error_t) (lvl : Nat) (o : StackOracle) : InitOutcome :=
  if err ≠ 0 then
    { reported := [err], macPrinted := false, calls := [], periodic := none }
  else
    let r := start_advertising lvl o
    { reported := r.reported, macPrinted := true, calls := r.calls, periodic := r.periodic }

/-- Mutable state touched by a periodic tick: `m_TheBatteryLevel`, the
builder contents, the advertising payload last successfully installed at
the Gap layer (`none` before any successful `setAdvertisingPayload`), and
the error codes reported so far. -/
structure DeviceState : Type where
  level : Nat
  builder : List AdvElement
  gapPayload : Option (List AdvElement)
  reported : List ble_error_t
deriving DecidableEq, Repr

/-- Status oracle for one tick's two fallible calls: the builder's
`setServiceData` and the Gap `setAdvertisingPayload`. -/
structure TickOracle : Type where
  serviceDataStatus : ble_error_t
  payloadStatus : ble_error_t
deriving DecidableEq, Repr

/-- `update_battery_level` (main.cpp lines 238-318).  Source order: mutate
`m_TheBatteryLevel` first (the post-decrement/wrap statement), then
`setServiceData` on the builder — on a non-success status printf the error
and return (builder left unchanged on its failure, per the builder's
no-partial-write contract); then `setAdvertisingPayload` — on a non-success
status printf the error and return, leaving the Gap layer's installed
payload as it was; on success the Gap layer now holds the new builder
contents. -/
def update_battery_level (s : DeviceState) (o : TickOracle) : DeviceState :=
  let lvl := update_battery_step s.level
  if o.serviceDataStatus ≠ 0 then
    { level := lvl, builder := s.builder, gapPayload := s.gapPayload,
      reported := s.reported ++ [o.serviceDataStatus] }
  else
    let b := setElement s.builder (AdvElement.serviceData UUID_BATTERY_SERVICE [lvl])
    if o.payloadStatus ≠ 0 then
      { level := lvl, builder := b, gapPayload := s.gapPayload,
        reported := s.reported ++ [o.payloadStatus] }
    else
      { level := lvl, builder := b, gapPayload := some b, reported := s.reported }

/-- The event queue keeps firing the `call_every` callback once per period:
each listed tick runs `update_battery_level` regardless of how earlier
ticks fared (nothing in the tick body cancels the registration or stops
the dispatch loop). -/
def run_ticks : DeviceState → List TickOracle → DeviceState
  | s, [] => s
  | s, o :: os => run_ticks (update_battery_level s o) os

/-- State of the shared `events::EventQueue` dispatch loop: pending
one-shot items (abstract ids), registered periodic periods (ms), and
whether the loop is executing. -/
structure SchedulerState : Type where
  pending : List Nat
  periodic : List Nat
  running : Bool
deriving DecidableEq, Repr

/-- One iteration of `dispatch_forever`: pop a due item (if any) and run
it; the loop has no exit path, so it is still running afterwards. -/
def dispatch_step (s : SchedulerState) : SchedulerState :=
  { pending := s.pending.tail, periodic := s.periodic, running := true }

/-- `n` iterations of the dispatch loop. -/
def dispatch_iter : SchedulerState → Nat → SchedulerState
  | s, 0 => s
  | s, n + 1 => dispatch_iter (dispatch_step s) n

/-- `start` (main.cpp lines 105-112): request stack initialization (whose
completion callback `on_init_complete` delivers `err`), then — with no
condition on the callback's outcome — enter
`m_SharedEventQueue.dispatch_forever()`.  The scheduler state on entry to
the loop: no pending one-shots from the controller, and exactly the
periodic registration (if any) that `on_init_complete` made. -/
def after_start (err : ble_error_t) (lvl : Nat) (o : StackOracle) : SchedulerState :=
  let r := on_init_complete err lvl o
  { pending := [],
    periodic := match r.periodic with | some p => [p] | none => [],
    running := true }

/-! Theorems. -/

/-- One unfolding of `battery_seq` at a successor index. -/
theorem battery_seq_succ (k : Nat) :
    battery_seq (k + 1) = update_battery_step (battery_seq k) := rfl

/-- Ticks 0 through 41 from the initial level 50 follow `50 - k`
(so tick 40 lands on 10) and tick 41 wraps to 100. -/
theorem battery_seq_first_descent : ∀ k < 41, battery_seq k = 50 - k := by decide

set_option maxRecDepth 4096 in
/-- From tick 41 on, 91 further ticks return the sequence to the same
value. -/
theorem battery_seq_cycle : ∀ j : Nat, battery_seq (41 + j + 91) = battery_seq (41 + j) := by
  intro j
  induction j with
  | zero => decide
  | succ n ih =>
    have h1 : 41 + (n + 1) + 91 = (41 + n + 91) + 1 := by omega
    rw [h1, battery_seq_succ, ih]
    rfl

/-- Claim C1 counterexample: at level 11 the program's tick
(`update_battery_step`, compare-then-decrement) yields 10, while the
claim's rule (`specClaimedTick`, decrement-then-compare) yields 100; the
two transition functions disagree at the concrete input 11. -/
theorem C1_counterexample :
    update_battery_step 11 = 10 ∧ specClaimedTick 11 = 100 ∧
    update_battery_step 11 ≠ specClaimedTick 11 := by decide

/-- Claim C1 (amended): the per-tick transition compares the
PRE-decrement level against 10 for equality (C post-decrement hands the
old value to the comparison): one tick maps level `v` to
`if v == 10 then 100 else v - 1`, the decrement wrapping as an unsigned
byte (so 0 would map to 255). -/
theorem C1_tick_rule (v : Nat) (h : v ≤ 255) :
    update_battery_step v =
      if v = 10 then 100 else (if v = 0 then 255 else v - 1) := by
  simp only [update_battery_step]
  split_ifs with h10 h0 <;> omega

/-- Claim C1 amended-rule witness at level 37: one tick yields 36. -/
theorem C1_tick_rule_witness :
    update_battery_step 37 =
      if 37 = 10 then 100 else (if 37 = 0 then 255 else 37 - 1) :=
  C1_tick_rule 37 (by decide)

/-- Claim C2: from the initial level 50, tick `k` (1 ≤ k ≤ 40) observes
`50 - k` (tick 40 observes 10), tick 41 observes 100, and from tick 41 on
the sequence is periodic with cycle length 91. -/
theorem C2_battery_sequence :
    (∀ k, 1 ≤ k → k ≤ 40 → battery_seq k = 50 - k) ∧
    battery_seq 41 = 100 ∧
    (∀ k, 41 ≤ k → battery_seq (k + 91) = battery_seq k) := by
  refine ⟨fun k _ hk2 => battery_seq_first_descent k (by omega), by decide, fun k hk => ?_⟩
  obtain ⟨j, rfl⟩ : ∃ j, k = 41 + j := ⟨k - 41, by omega⟩
  exact battery_seq_cycle j

/-- Claim C2 witness: tick 20 observes 30, and 91 ticks after tick 41 the
level repeats. -/
theorem C2_battery_sequence_witness :
    battery_seq 20 = 50 - 20 ∧ battery_seq (41 + 91) = battery_seq 41 :=
  ⟨C2_battery_sequence.1 20 (by decide) (by decide),
   C2_battery_sequence.2.2 41 (by decide)⟩

/-- Claim C6: the classifier is total — for every code value it returns a
non-empty string, and every code outside the fourteen enumerated ones
(values 0..13) gets the fixed sentinel string.  `ToString` is a Lean
function, so it has no side effects and leaves `gs_ErrorCodesMap`
untouched. -/
theorem C6_classifier_total (code : Nat) :
    0 < (ToString code).length ∧
    (14 ≤ code → ToString code = unknownCodeSentinel) ∧
    ToString BLE_ERROR_NONE = "\"No error\"" ∧
    ToString BLE_ERROR_BUFFER_OVERFLOW =
      "\"The requested action would cause a buffer overflow and has been aborted\"" ∧
    ToString BLE_ERROR_NOT_IMPLEMENTED =
      "\"Requested a feature that isn\x27t yet implemented or isn\x27t supported by the target HW\"" ∧
    ToString BLE_ERROR_PARAM_OUT_OF_RANGE =
      "\"One of the supplied parameters is outside the valid range\"" ∧
    ToString BLE_ERROR_INVALID_PARAM = "\"One of the supplied parameters is invalid\"" ∧
    ToString BLE_STACK_BUSY = "\"The stack is busy\"" ∧
    ToString BLE_ERROR_INVALID_STATE = "\"Invalid state\"" ∧
    ToString BLE_ERROR_NO_MEM = "\"Out of memory\"" ∧
    ToString BLE_ERROR_OPERATION_NOT_PERMITTED =
      "\"The operation requested is not permitted\"" ∧
    ToString BLE_ERROR_INITIALIZATION_INCOMPLETE =
      "\"The BLE subsystem has not completed its initialization\"" ∧
    ToString BLE_ERROR_ALREADY_INITIALIZED =
      "\"The BLE system has already been initialized\"" ∧
    ToString BLE_ERROR_UNSPECIFIED = "\"Unknown error\"" ∧
    ToString BLE_ERROR_INTERNAL_STACK_FAILURE =
      "\"The platform-specific stack failed\"" ∧
    ToString BLE_ERROR_NOT_FOUND =
      "\"Data not found or there is nothing to return\"" := by
  have hpos : 0 < (ToString code).length := by
    by_cases h : code < 14
    · interval_cases code <;> decide
    · obtain ⟨n, rfl⟩ : ∃ n, code = n + 14 := ⟨code - 14, by omega⟩
      have hs : ToString (n + 14) = unknownCodeSentinel := rfl
      rw [hs]; decide
  have hsent : 14 ≤ code → ToString code = unknownCodeSentinel := by
    intro h14
    obtain ⟨n, rfl⟩ : ∃ n, code = n + 14 := ⟨code - 14, by omega⟩
    rfl
  exact ⟨hpos, hsent, by decide⟩

/-- Claim C6 witness: the out-of-table code 99 gets the sentinel, and the
enumerated code 0 gets its fixed description. -/
theorem C6_classifier_total_witness :
    ToString 99 = unknownCodeSentinel ∧ ToString BLE_ERROR_NONE = "\"No error\"" :=
  ⟨(C6_classifier_total 99).2.1 (by decide), (C6_classifier_total 0).2.2.1⟩

/-- Claim C7: after every complete tick (any number of elapsed ticks from
the initial 50) the battery level lies in [10, 100]; it never goes below
10. -/
theorem C7_battery_in_range (k : Nat) :
    10 ≤ battery_seq k ∧ battery_seq k ≤ 100 := by
  induction k with
  | zero => decide
  | succ n ih =>
    obtain ⟨h1, h2⟩ := ih
    rw [battery_seq_succ]
    simp only [update_battery_step]
    by_cases h : battery_seq n = 10
    · simp [h]
    · rw [if_neg h]
      constructor <;> omega

/-- Claim C3 counterexample: with a stack whose
`setAdvertisingScanResponse` returns the non-success status 9 (and all
later calls succeeding), `start_advertising` neither reports the error nor
returns early: it goes on to make three further stack calls and registers
the periodic callback.  The scan-response status is never checked. -/
theorem C3_counterexample :
    (StackOracle.mk 9 0 0 0).scanRespStatus ≠ 0 ∧
    (start_advertising initialBatteryLevel (StackOracle.mk 9 0 0 0)).calls.length = 4 ∧
    (start_advertising initialBatteryLevel (StackOracle.mk 9 0 0 0)).reported = [] ∧
    (start_advertising initialBatteryLevel (StackOracle.mk 9 0 0 0)).periodic = some 1000 := by
  decide

/-- Claim C3 (amended): of the four Gap calls made during advertising
setup, the statuses of parameter configuration, payload configuration and
start-advertising are each checked immediately, and a non-success status
there reports the error and returns early with no further stack calls and
no periodic registration; the status returned by the scan-response
configuration call is not checked, and setup continues regardless of it. -/
theorem C3_setup_status_checks (lvl : Nat) (o : StackOracle) :
    (o.paramsStatus ≠ 0 →
      (start_advertising lvl o).calls =
        [StackCall.setScanResponse scanResponsePayload,
         StackCall.setParams AdvType.scannableUndirected 1000] ∧
      (start_advertising lvl o).reported = [o.paramsStatus] ∧
      (start_advertising lvl o).periodic = none) ∧
    (o.paramsStatus = 0 → o.payloadStatus ≠ 0 →
      (start_advertising lvl o).calls =
        [StackCall.setScanResponse scanResponsePayload,
         StackCall.setParams AdvType.scannableUndirected 1000,
         StackCall.setPayload (primaryPayload lvl)] ∧
      (start_advertising lvl o).reported = [o.payloadStatus] ∧
      (start_advertising lvl o).periodic = none) ∧
    (o.paramsStatus = 0 → o.payloadStatus = 0 → o.startStatus ≠ 0 →
      (start_advertising lvl o).calls =
        [StackCall.setScanResponse scanResponsePayload,
         StackCall.setParams AdvType.scannableUndirected 1000,
         StackCall.setPayload (primaryPayload lvl),
         StackCall.startAdv] ∧
      (start_advertising lvl o).reported = [o.startStatus] ∧
      (start_advertising lvl o).periodic = none) := by
  refine ⟨fun h1 => ?_, fun h1 h2 => ?_, fun h1 h2 h3 => ?_⟩
  · simp [start_advertising, scanResponsePayload, setElement, sameTag, h1]
  · simp [start_advertising, scanResponsePayload, primaryPayload, setElement, sameTag, h1, h2]
  · simp [start_advertising, scanResponsePayload, primaryPayload, setElement, sameTag, h1, h2, h3]

/-- Claim C3 amended-rule witness: a failing `setAdvertisingParameters`
(status 7) reports 7, stops after two stack calls, and registers nothing. -/
theorem C3_setup_status_checks_witness :
    (start_advertising 50 (StackOracle.mk 0 7 0 0)).calls =
      [StackCall.setScanResponse scanResponsePayload,
       StackCall.setParams AdvType.scannableUndirected 1000] ∧
    (start_advertising 50 (StackOracle.mk 0 7 0 0)).reported = [7] ∧
    (start_advertising 50 (StackOracle.mk 0 7 0 0)).periodic = none :=
  (C3_setup_status_checks 50 (StackOracle.mk 0 7 0 0)).1 (by decide)

/-- Claim C4: a non-success initialization status makes `on_init_complete`
report that code and stop — no MAC printing, no Gap call of any kind, and
no periodic registration. -/
theorem C4_init_failure_halts (err : ble_error_t) (lvl : Nat) (o : StackOracle)
    (h : err ≠ 0) :
    on_init_complete err lvl o =
      { reported := [err], macPrinted := false, calls := [], periodic := none } := by
  simp [on_init_complete, h]

/-- Claim C4 witness at `BLE_ERROR_INITIALIZATION_INCOMPLETE` (code 9). -/
theorem C4_init_failure_halts_witness :
    on_init_complete BLE_ERROR_INITIALIZATION_INCOMPLETE 50 (StackOracle.mk 0 0 0 0) =
      { reported := [BLE_ERROR_INITIALIZATION_INCOMPLETE], macPrinted := false,
        calls := [], periodic := none } :=
  C4_init_failure_halts BLE_ERROR_INITIALIZATION_INCOMPLETE 50 (StackOracle.mk 0 0 0 0)
    (by decide)

/-- Claim C5: when a tick's patch fails (at the builder's `setServiceData`
or at the Gap `setAdvertisingPayload`), the failing status is reported and
the Gap layer keeps the previously installed payload; the tick aborts with
no retry, and the scheduler is not halted — the next tick still runs, and
if it succeeds it installs the payload for the then-current level. -/
theorem C5_patch_failure_nonfatal (s : DeviceState) (o1 o2 : TickOracle)
    (h1 : o1.serviceDataStatus ≠ 0 ∨ (o1.serviceDataStatus = 0 ∧ o1.payloadStatus ≠ 0))
    (h2 : o2.serviceDataStatus = 0) (h3 : o2.payloadStatus = 0) :
    (update_battery_level s o1).gapPayload = s.gapPayload ∧
    (update_battery_level s o1).reported =
      s.reported ++
        [if o1.serviceDataStatus ≠ 0 then o1.serviceDataStatus else o1.payloadStatus] ∧
    (run_ticks s [o1, o2]).gapPayload =
      some (setElement (update_battery_level s o1).builder
        (AdvElement.serviceData UUID_BATTERY_SERVICE
          [update_battery_step (update_battery_step s.level)])) := by
  obtain h | h := h1
  · simp [run_ticks, update_battery_level, h, h2, h3]
  · obtain ⟨ha, hb⟩ := h
    simp [run_ticks, update_battery_level, ha, hb, h2, h3]

/-- Claim C5 witness: from level 50, a tick whose `setServiceData` returns
7 leaves no payload installed at the Gap layer, and the following
successful tick installs service data for level 48. -/
theorem C5_patch_failure_nonfatal_witness :
    (run_ticks (DeviceState.mk 50 [] none []) [TickOracle.mk 7 0, TickOracle.mk 0 0]).gapPayload =
      some [AdvElement.serviceData UUID_BATTERY_SERVICE [48]] :=
  ((C5_patch_failure_nonfatal (DeviceState.mk 50 [] none []) (TickOracle.mk 7 0)
      (TickOracle.mk 0 0) (Or.inl (by decide)) (by decide) (by decide)).2.2).trans (by decide)

/-- Claim C8: when the stack reports successful initialization and every
Gap setup call succeeds, the controller's calls are exactly: scan response
holding the manufacturer bytes [0xAD, 0xDE, 0xBE, 0xEF]; parameters
scannable-undirected at 1000 ms; primary payload holding Flags, the
complete local name, and battery service data with value 50; then
start-advertising; and the periodic battery update is registered at a
1000 ms period. -/
theorem C8_success_configuration (o : StackOracle)
    (hp : o.paramsStatus = 0) (hq : o.payloadStatus = 0) (hr : o.startStatus = 0) :
    (on_init_complete BLE_ERROR_NONE initialBatteryLevel o).calls =
      [StackCall.setScanResponse scanResponsePayload,
       StackCall.setParams AdvType.scannableUndirected 1000,
       StackCall.setPayload (primaryPayload initialBatteryLevel),
       StackCall.startAdv] ∧
    scanResponsePayload = [AdvElement.manufacturerData [0xAD, 0xDE, 0xBE, 0xEF]] ∧
    primaryPayload initialBatteryLevel =
      [AdvElement.flags, AdvElement.completeLocalName "NUCLEO-WB55RG",
       AdvElement.serviceData UUID_BATTERY_SERVICE [50]] ∧
    (on_init_complete BLE_ERROR_NONE initialBatteryLevel o).periodic = some 1000 := by
  refine ⟨?_, by decide, by decide, ?_⟩ <;>
    simp [on_init_complete, start_advertising, BLE_ERROR_NONE, initialBatteryLevel,
          scanResponsePayload, primaryPayload, setElement, sameTag, hp, hq, hr]

/-- Claim C8 witness: the all-success oracle yields exactly that
configuration. -/
theorem C8_success_configuration_witness :
    (on_init_complete BLE_ERROR_NONE initialBatteryLevel (StackOracle.mk 0 0 0 0)).calls =
      [StackCall.setScanResponse scanResponsePayload,
       StackCall.setParams AdvType.scannableUndirected 1000,
       StackCall.setPayload (primaryPayload initialBatteryLevel),
       StackCall.startAdv] ∧
    scanResponsePayload = [AdvElement.manufacturerData [0xAD, 0xDE, 0xBE, 0xEF]] ∧
    primaryPayload initialBatteryLevel =
      [AdvElement.flags, AdvElement.completeLocalName "NUCLEO-WB55RG",
       AdvElement.serviceData UUID_BATTERY_SERVICE [50]] ∧
    (on_init_complete BLE_ERROR_NONE initialBatteryLevel (StackOracle.mk 0 0 0 0)).periodic =
      some 1000 :=
  C8_success_configuration (StackOracle.mk 0 0 0 0) (by decide) (by decide) (by decide)

/-- Claim C9: a tick whose patch fails — at the builder's `setServiceData`
or at the Gap `setAdvertisingPayload` — has already advanced the battery
level (no rollback) while publishing nothing; the next tick continues from
the advanced value, so a following successful tick publishes the
twice-advanced level, skipping the value decremented during the failed
tick. -/
theorem C9_failed_tick_advances_level (s : DeviceState) (o1 o2 : TickOracle)
    (h1 : o1.serviceDataStatus ≠ 0 ∨ (o1.serviceDataStatus = 0 ∧ o1.payloadStatus ≠ 0))
    (h2 : o2.serviceDataStatus = 0) (h3 : o2.payloadStatus = 0) :
    (update_battery_level s o1).level = update_battery_step s.level ∧
    (update_battery_level s o1).gapPayload = s.gapPayload ∧
    (run_ticks s [o1, o2]).level = update_battery_step (update_battery_step s.level) ∧
    (run_ticks s [o1, o2]).gapPayload =
      some (setElement (update_battery_level s o1).builder
        (AdvElement.serviceData UUID_BATTERY_SERVICE
          [update_battery_step (update_battery_step s.level)])) := by
  obtain h | h := h1
  · simp [run_ticks, update_battery_level, h, h2, h3]
  · obtain ⟨ha, hb⟩ := h
    simp [run_ticks, update_battery_level, ha, hb, h2, h3]

/-- Claim C9 witness, exercising the `setAdvertisingPayload`-failure mode:
from level 50, a tick whose payload push returns 5 advances to 49 without
publishing; the next successful tick publishes level 48 — the value 49 is
never published. -/
theorem C9_failed_tick_advances_level_witness :
    (update_battery_level (DeviceState.mk 50 [] none []) (TickOracle.mk 0 5)).level = 49 ∧
    (update_battery_level (DeviceState.mk 50 [] none []) (TickOracle.mk 0 5)).gapPayload =
      none ∧
    (run_ticks (DeviceState.mk 50 [] none []) [TickOracle.mk 0 5, TickOracle.mk 0 0]).level =
      48 :=
  And.intro
    (((C9_failed_tick_advances_level (DeviceState.mk 50 [] none []) (TickOracle.mk 0 5)
        (TickOracle.mk 0 0) (Or.inr (And.intro (by decide) (by decide))) (by decide)
        (by decide)).1).trans (by decide))
    (And.intro
      ((C9_failed_tick_advances_level (DeviceState.mk 50 [] none []) (TickOracle.mk 0 5)
          (TickOracle.mk 0 0) (Or.inr (And.intro (by decide) (by decide))) (by decide)
          (by decide)).2.1)
      (((C9_failed_tick_advances_level (DeviceState.mk 50 [] none []) (TickOracle.mk 0 5)
          (TickOracle.mk 0 0) (Or.inr (And.intro (by decide) (by decide))) (by decide)
          (by decide)).2.2.1).trans (by decide)))

/-- Any number of dispatch-loop iterations keeps the loop running and the
set of periodic registrations unchanged. -/
theorem dispatch_iter_keeps (n : Nat) : ∀ s : SchedulerState, s.running = true →
    (dispatch_iter s n).running = true ∧ (dispatch_iter s n).periodic = s.periodic := by
  induction n with
  | zero => exact fun s h => ⟨h, rfl⟩
  | succ m ih =>
    intro s h
    have h2 := ih (dispatch_step s) rfl
    simpa [dispatch_iter, dispatch_step] using h2

/-- Claim C10: `start` enters the dispatch loop unconditionally after
requesting initialization, so when the completion callback delivers a
non-success code the process keeps dispatching forever: no Gap call was
made, the loop is running on entry and after every number of iterations,
and no periodic work is ever registered. -/
theorem C10_dispatch_forever_on_init_failure (err : ble_error_t) (lvl : Nat)
    (o : StackOracle) (n : Nat) (h : err ≠ 0) :
    (on_init_complete err lvl o).calls = [] ∧
    (after_start err lvl o).running = true ∧
    (dispatch_iter (after_start err lvl o) n).running = true ∧
    (dispatch_iter (after_start err lvl o) n).periodic = [] := by
  have hp : (after_start err lvl o).periodic = [] := by
    simp [after_start, on_init_complete, h]
  have hk := dispatch_iter_keeps n (after_start err lvl o) rfl
  exact ⟨by simp [on_init_complete, h], rfl, hk.1, hk.2.trans hp⟩

/-- Claim C10 witness: with init status 9, after five loop iterations the
scheduler is still running with no periodic registration and no Gap call
was ever made. -/
theorem C10_dispatch_forever_witness :
    (on_init_complete 9 50 (StackOracle.mk 0 0 0 0)).calls = [] ∧
    (after_start 9 50 (StackOracle.mk 0 0 0 0)).running = true ∧
    (dispatch_iter (after_start 9 50 (StackOracle.mk 0 0 0 0)) 5).running = true ∧
    (dispatch_iter (after_start 9 50 (StackOracle.mk 0 0 0 0)) 5).periodic = [] :=
  C10_dispatch_forever_on_init_failure 9 50 (StackOracle.mk 0 0 0 0) 5 (by decide)

end BLEAdvertising
